import Mathlib

/-!
Verification of the Directus version-control-changelog extension.

The development shallowly embeds the two core source components:

* ChangelogFormatter (src/src/api/BitbucketVersionControl.ts, second unit:
  formatLatestChanges and insertNewEntryIntoLog) - pure text transformations.
* BitbucketVersionControl (same file, first unit: applyConfig and
  addToChangelogFile) - the remote-sync component, modelled as a function of
  an explicit remote-server behaviour plus a trace of the HTTP requests it
  issues.

JavaScript strings are modelled through the character list of a Lean String:
each js* definition below is a direct model of the corresponding
String.prototype method used by the source (trim, trimStart, startsWith,
concat, substring, split).
-/

/-- Model of JavaScript String.prototype.trimStart on the character list. -/
def jsTrimLeft (s : String) : String :=
  String.mk (s.data.dropWhile Char.isWhitespace)

/-- Model of JavaScript String.prototype.trim: drop whitespace from both ends. -/
def jsTrim (s : String) : String :=
  String.mk (((s.data.dropWhile Char.isWhitespace).reverse.dropWhile Char.isWhitespace).reverse)

/-- Model of JavaScript String.prototype.startsWith: the pattern is a prefix
of the string. -/
def jsStartsWith (s p : String) : Bool :=
  decide (p.data <+: s.data)

/-- Model of JavaScript String.prototype.concat. -/
def jsConcat (a b : String) : String :=
  String.mk (a.data ++ b.data)

/-- Model of JavaScript String.prototype.substring(n): drop the first n
characters. -/
def jsSubstringFrom (s : String) (n : Nat) : String :=
  String.mk (s.data.drop n)

/-- Accumulator loop for splitting a character list at newline characters. -/
def splitLinesAux : List Char → List Char → List String
  | [], acc => [String.mk acc.reverse]
  | c :: cs, acc =>
    if c = '\n' then String.mk acc.reverse :: splitLinesAux cs [] else splitLinesAux cs (c :: acc)

/-- Model of JavaScript String.prototype.split with separator newline. -/
def jsSplitNl (s : String) : List String := splitLinesAux s.data []

/-- Body of the forEach loop of ChangelogFormatter.formatLatestChanges: a
blank-after-trim line yields nothing; otherwise the line is normalized to a
markdown list item following exactly the three source branches (no leading
dash: prepend dash-space; dash-space already present: pass through; dash
without space: dash-space plus substring(1)). -/
def formatLine (line : String) : Option String :=
  if jsTrim line ≠ "" then
    some (if !(jsStartsWith (jsTrim line) "-") then jsConcat "- " line
          else if jsStartsWith (jsTrim line) "- " then line
          else jsConcat "- " (jsSubstringFrom line 1))
  else none

/-- ChangelogFormatter.formatLatestChanges: split the raw text on newlines,
push the headline and a blank line, then push the per-line normalization of
every surviving line in order. -/
def formatLatestChanges (userChangelog entryHeadline : String) : List String :=
  entryHeadline :: "" :: (jsSplitNl userChangelog).filterMap formatLine

/-- The fixed fileHeadline constant of ChangelogFormatter.insertNewEntryIntoLog. -/
def fileHeadline : String := "# Directus Changelog"

/-- Body of the forEach loop of ChangelogFormatter.insertNewEntryIntoLog with
index: at index 0 or 1 the old line is kept only when its trim differs from
the trim of the line already at the same index of the new log (the lookup
newLog[index] with optional chaining is modelled by List.get followed by
Option.map; those two positions are pushed before the loop runs and never
change); every later index is kept unconditionally. -/
def keepOldLine (newLog : List String) (p : Nat × String) : Option String :=
  if p.1 = 0 ∨ p.1 = 1 then
    if (newLog.get? p.1).map jsTrim ≠ some (jsTrim p.2) then some p.2 else none
  else some p.2

/-- ChangelogFormatter.insertNewEntryIntoLog: push the fixed headline and a
blank line, then all new lines, then the old log filtered through the
index-aware loop body. -/
def insertNewEntryIntoLog (oldLog newLines : List String) : List String :=
  let newLog := fileHeadline :: "" :: newLines
  newLog ++ oldLog.enum.filterMap (keepOldLine newLog)

/-- Credentials record (src/src/interfaces/Credentials.ts). -/
structure Credentials where
  user : String
  password : String
  token : String
deriving DecidableEq

/-- Configuration record (src/src/interfaces/VersionControlConfig.ts). -/
structure VersionControlConfig where
  serverUrl : String
  projectName : String
  repositoryName : String
  branchName : String
deriving DecidableEq

/-- Exception kinds (src/src/enums/ExceptionTypes.ts). -/
inductive ExceptionTypes where
  | InvalidConfigException
  | InvalidCredentialsException
  | FailedValidationException
  | UnexpectedResponseException
  | BaseException
deriving DecidableEq

/-- Mutable state of the BitbucketVersionControl class. -/
structure BitbucketVersionControl where
  authentication : Credentials
  serverConfig : VersionControlConfig
  changelogFile : String
  isConfigured : Bool
deriving DecidableEq

/-- State produced by the BitbucketVersionControl constructor: empty values
and not configured. -/
def newBitbucketVersionControl : BitbucketVersionControl :=
  { authentication := { user := "", password := "", token := "" }
    serverConfig := { serverUrl := "", projectName := "", repositoryName := "", branchName := "" }
    changelogFile := ""
    isConfigured := false }

/-- BitbucketVersionControl.applyConfig. The undefined-parameter guard of the
source is unrepresentable here because all inputs are total values. The
remaining guards are translated verbatim, including the duplicated
repositoryName test of the source (the fourth disjunct of the first guard
checks repositoryName a second time instead of branchName). -/
def applyConfig (self : BitbucketVersionControl) (authentication : Credentials)
    (config : VersionControlConfig) (changelogFile : String) :
    Except ExceptionTypes BitbucketVersionControl :=
  if jsTrim config.serverUrl = ""
      ∨ jsTrim config.projectName = ""
      ∨ jsTrim config.repositoryName = ""
      ∨ jsTrim config.repositoryName = "" then
    Except.error ExceptionTypes.InvalidConfigException
  else if jsTrim changelogFile = "" then
    Except.error ExceptionTypes.InvalidConfigException
  else if jsTrim authentication.user = "" ∨ jsTrim authentication.password = "" then
    Except.error ExceptionTypes.InvalidCredentialsException
  else
    Except.ok { self with
      authentication := authentication
      serverConfig := config
      changelogFile := changelogFile
      isConfigured := true }

/-- Remote requests the component can issue against the Bitbucket v1 API.
The createBranch constructor is part of the API vocabulary of the interface
description so that branch-creation claims are statable; the source of
addToChangelogFile never constructs it. -/
inductive Request where
  | getCommits (url : String)
  | getBrowse (url : String)
  | putFile (url : String) (fields : List (String × String))
  | createBranch (url : String) (fields : List (String × String))
deriving DecidableEq

/-- Outcome of one axios call: a rejected promise (transport failure, or a
non-2xx status under the default validateStatus) or a resolved response
carrying a status code and a payload. -/
inductive AxiosResult (α : Type) where
  | thrown (msg : String)
  | resolved (status : Nat) (data : α)
deriving DecidableEq

/-- Payload of the commits listing: the ids of the returned commits. -/
structure CommitsData where
  values : List String
deriving DecidableEq

/-- Payload of the file browse call: the text of each returned line; none
models a response object without a lines field (the source reads it through
optional chaining). -/
structure BrowseData where
  lines : Option (List String)
deriving DecidableEq

/-- Behaviour of the remote server during one publish call: the reply to the
commits fetch, the reply to the browse fetch, and the reply to a put as a
function of the submitted form fields. -/
structure RemoteServer where
  commits : AxiosResult CommitsData
  browse : AxiosResult BrowseData
  put : List (String × String) → AxiosResult Unit

/-- Failure channel of addToChangelogFile: a deliberate throw written in the
source, a propagated axios rejection (the source has no try/catch), or the
TypeError raised by reading values[0].id on an empty values array. -/
inductive PublishError where
  | deliberate (e : ExceptionTypes) (msg : String)
  | axiosThrown (msg : String)
  | jsTypeError
deriving DecidableEq

/-- URL of the commits fetch built in addToChangelogFile. -/
def commitsUrl (cfg : VersionControlConfig) : String :=
  cfg.serverUrl ++ "/rest/api/1.0/projects/" ++ cfg.projectName ++ "/repos/"
    ++ cfg.repositoryName ++ "/commits?until=" ++ cfg.branchName ++ "&limit=0&start=0"

/-- URL of the browse fetch built in addToChangelogFile. -/
def browseUrl (cfg : VersionControlConfig) (file : String) : String :=
  cfg.serverUrl ++ "/rest/api/1.0/projects/" ++ cfg.projectName ++ "/repos/"
    ++ cfg.repositoryName ++ "/browse/" ++ file ++ "?at=" ++ cfg.branchName

/-- URL of the file put built in addToChangelogFile. -/
def putUrl (cfg : VersionControlConfig) (file : String) : String :=
  cfg.serverUrl ++ "/rest/api/1.0/projects/" ++ cfg.projectName ++ "/repos/"
    ++ cfg.repositoryName ++ "/browse/" ++ file

/-- BitbucketVersionControl.addToChangelogFile, step for step: guard on
isConfigured (the single explicit throw); commits fetch; status test against
200; head commit id from values[0] (TypeError when empty); browse fetch;
status test; line extraction through optional chaining; merge through
insertNewEntryIntoLog; form-data assembly in source order including the
unconditional sourceCommitId field; put; status test. The second component
collects the requests issued before the call returned or an error escaped. -/
def addToChangelogFile (self : BitbucketVersionControl) (srv : RemoteServer)
    (newContent : List String) (commitMessage : String) :
    Except PublishError Bool × List Request :=
  if !self.isConfigured then
    (Except.error (PublishError.deliberate ExceptionTypes.BaseException
      "BitbucketVersionControl: Calling addToChangelogFile() cannot work without configuration; run applyConfig() first"), [])
  else
    let req1 := Request.getCommits (commitsUrl self.serverConfig)
    match srv.commits with
    | AxiosResult.thrown m => (Except.error (PublishError.axiosThrown m), [req1])
    | AxiosResult.resolved st d =>
      if st ≠ 200 then (Except.ok false, [req1])
      else
        match d.values with
        | [] => (Except.error PublishError.jsTypeError, [req1])
        | lastCommitId :: _ =>
          let req2 := Request.getBrowse (browseUrl self.serverConfig self.changelogFile)
          match srv.browse with
          | AxiosResult.thrown m => (Except.error (PublishError.axiosThrown m), [req1, req2])
          | AxiosResult.resolved st2 d2 =>
            if st2 ≠ 200 then (Except.ok false, [req1, req2])
            else
              let tempLines := d2.lines.getD []
              let newLogLines := insertNewEntryIntoLog tempLines newContent
              let fields := [("branch", self.serverConfig.branchName),
                             ("content", String.intercalate "\n" newLogLines),
                             ("message", commitMessage),
                             ("sourceCommitId", lastCommitId)]
              let req3 := Request.putFile (putUrl self.serverConfig self.changelogFile) fields
              match srv.put fields with
              | AxiosResult.thrown m => (Except.error (PublishError.axiosThrown m), [req1, req2, req3])
              | AxiosResult.resolved st3 _ =>
                if st3 ≠ 200 then (Except.ok false, [req1, req2, req3])
                else (Except.ok true, [req1, req2, req3])

/-- Recognizer for branch-creation requests. -/
def Request.isCreate : Request → Bool
  | Request.createBranch _ _ => true
  | _ => false

/-- Recognizer for file put requests. -/
def Request.isPut : Request → Bool
  | Request.putFile _ _ => true
  | _ => false

/-- Whether a put request carries a sourceCommitId form field. -/
def Request.hasSourceCommitField : Request → Bool
  | Request.putFile _ fields => fields.any (fun kv => kv.1 == "sourceCommitId")
  | _ => false

/-- Concrete configuration used by the evaluation theorems. -/
def demoConfig : VersionControlConfig :=
  { serverUrl := "https://bitbucket.example.com", projectName := "PRJ"
    repositoryName := "website", branchName := "feature/directus-changes" }

/-- Concrete credentials used by the evaluation theorems. -/
def demoCredentials : Credentials :=
  { user := "svc-directus", password := "hunter2", token := "" }

/-- Concrete configured instance used by the evaluation theorems. -/
def demoState : BitbucketVersionControl :=
  { authentication := demoCredentials
    serverConfig := demoConfig, changelogFile := "CHANGELOG.md", isConfigured := true }

/-- Concrete configuration whose branchName is blank while every other value
is well formed. -/
def blankBranchConfig : VersionControlConfig :=
  { serverUrl := "https://bitbucket.example.com", projectName := "PRJ"
    repositoryName := "website", branchName := " " }

/-- Server behaviour when the configured working branch does not exist: the
commits query for that branch is rejected with 404 (the NoSuchCommitException
case recorded in the source comments). -/
def missingBranchServer : RemoteServer :=
  { commits := AxiosResult.thrown "404 NoSuchCommitException"
    browse := AxiosResult.thrown "404 NoSuchCommitException"
    put := fun _ => AxiosResult.thrown "404" }

/-- Server behaviour when the branch exists but the target file does not: the
browse read is rejected with 404. -/
def missingFileServer : RemoteServer :=
  { commits := AxiosResult.resolved 200 { values := ["c0ffee01"] }
    browse := AxiosResult.thrown "404 The path CHANGELOG.md does not exist"
    put := fun _ => AxiosResult.resolved 200 () }

/-- Server behaviour when branch and file both exist and every call succeeds. -/
def happyServer : RemoteServer :=
  { commits := AxiosResult.resolved 200 { values := ["c0ffee01"] }
    browse := AxiosResult.resolved 200 { lines := some ["# Directus Changelog", "", "- old"] }
    put := fun _ => AxiosResult.resolved 200 () }

/-- Server behaviour for a plain transport failure on the first call. -/
def brokenNetworkServer : RemoteServer :=
  { commits := AxiosResult.thrown "connect ECONNREFUSED"
    browse := AxiosResult.thrown "connect ECONNREFUSED"
    put := fun _ => AxiosResult.thrown "connect ECONNREFUSED" }

/-! Helper lemmas shared by the claim theorems. -/

theorem jsTrim_headline : jsTrim "# Directus Changelog" = "# Directus Changelog" := by decide

theorem jsTrim_empty : jsTrim "" = "" := by decide

theorem dashSpace_data : ("- " : String).data = ['-', ' '] := by decide

theorem keepOldLine_ge_two (nl : List String) (i : Nat) (a : String) (h : 2 ≤ i) :
    keepOldLine nl (i, a) = some a := by
  unfold keepOldLine
  have h0 : ¬(i = 0 ∨ i = 1) := by omega
  simp [h0]

theorem filterMap_keepOldLine_enumFrom (nl : List String) :
    ∀ (rest : List String) (n : Nat), 2 ≤ n →
      (List.enumFrom n rest).filterMap (keepOldLine nl) = rest := by
  intro rest
  induction rest with
  | nil => intro n _; simp
  | cons x xs ih =>
    intro n hn
    simp [List.enumFrom, List.filterMap_cons, keepOldLine_ge_two nl n x hn, ih (n + 1) (by omega)]

theorem jsTrim_data (s : String) :
    (jsTrim s).data
      = ((s.data.dropWhile Char.isWhitespace).reverse.dropWhile Char.isWhitespace).reverse := rfl

theorem jsTrim_data_isPre_trimLeft (s : String) : (jsTrim s).data <+: (jsTrimLeft s).data := by
  rw [jsTrim_data]
  have h1 : (((jsTrimLeft s).data.reverse).dropWhile Char.isWhitespace)
      <:+ (jsTrimLeft s).data.reverse :=
    List.dropWhile_suffix _
  have h2 : (((jsTrimLeft s).data.reverse).dropWhile Char.isWhitespace).reverse
      <+: ((jsTrimLeft s).data.reverse).reverse := List.reverse_prefix.mpr h1
  simpa using h2

theorem trimLeft_dash_cons (l : List Char) :
    (jsTrimLeft (String.mk ('-' :: ' ' :: l))).data = '-' :: ' ' :: l := by
  simp [jsTrimLeft, List.dropWhile]

theorem startsWith_dashSpace_concat (b : String) :
    jsStartsWith (jsTrimLeft (jsConcat "- " b)) "- " = true := by
  apply decide_eq_true
  rw [show jsConcat "- " b = String.mk ('-' :: ' ' :: b.data) by
      cases b; simp [jsConcat, dashSpace_data]]
  rw [trimLeft_dash_cons, dashSpace_data]
  exact ⟨b.data, rfl⟩

theorem formatLine_some_startsWith (line item : String) (h : formatLine line = some item) :
    jsStartsWith (jsTrimLeft item) "- " = true := by
  by_cases htr : jsTrim line = ""
  · simp [formatLine, htr] at h
  · by_cases hs1 : jsStartsWith (jsTrim line) "-"
    · by_cases hs2 : jsStartsWith (jsTrim line) "- "
      · have hitem : item = line := by
          simp [formatLine, htr, hs1, hs2] at h
          exact h.symm
        subst hitem
        apply decide_eq_true
        have hpre : ("- " : String).data <+: (jsTrim item).data := of_decide_eq_true hs2
        exact hpre.trans (jsTrim_data_isPre_trimLeft item)
      · have hitem : item = jsConcat "- " (jsSubstringFrom line 1) := by
          simp [formatLine, htr, hs1, hs2] at h
          exact h.symm
        subst hitem
        exact startsWith_dashSpace_concat _
    · have hitem : item = jsConcat "- " line := by
        simp [formatLine, htr, hs1] at h
        exact h.symm
      subst hitem
      exact startsWith_dashSpace_concat _

theorem formatLine_none_iff (line : String) : formatLine line = none ↔ jsTrim line = "" := by
  by_cases htr : jsTrim line = "" <;> simp [formatLine, htr]

theorem length_filterMap_formatLine (L : List String) :
    (L.filterMap formatLine).length = (L.filter (fun l => !(jsTrim l == ""))).length := by
  induction L with
  | nil => rfl
  | cons x xs ih =>
    by_cases htr : jsTrim x = ""
    · have hx : formatLine x = none := (formatLine_none_iff x).mpr htr
      simp [List.filterMap_cons, hx, htr, ih]
    · have hx : ∃ y, formatLine x = some y := by
        simp [formatLine, htr]
      obtain ⟨y, hy⟩ := hx
      simp [List.filterMap_cons, hy, htr, ih]

/-! Claim theorems. -/

/-- C1: the claim states that a publish against a working branch missing from
the discovered branch set performs a branch-creation remote write before the
file read, starting from the default branch head. Evaluation at a concrete
publish against a missing branch (the server rejects the commits query with
404, as the source comments record) shows the code issues only the initial
commits fetch: no branch-creation request is ever made and the file read is
never reached. -/
theorem C1_missing_branch_publish_creates_no_branch :
    (addToChangelogFile demoState missingBranchServer ["## h", "", "- n"] "msg").2
      = [Request.getCommits (commitsUrl demoConfig)] ∧
    ((addToChangelogFile demoState missingBranchServer ["## h", "", "- n"] "msg").2.filter
      Request.isCreate) = [] := by
  constructor <;> rfl

/-- C2: the claim states that when the target file is absent the push omits
the sourceCommitId field and still happens as a file creation. Evaluation
shows the opposite on both sides: with the file absent (browse rejected with
404) no push is issued at all, and on a successful publish the single push
always carries a sourceCommitId field. -/
theorem C2_missing_file_push_behavior :
    ((addToChangelogFile demoState missingFileServer ["## h"] "msg").2.filter Request.isPut)
      = [] ∧
    ((addToChangelogFile demoState happyServer ["## h"] "msg").2.filter Request.isPut).length
      = 1 ∧
    ((addToChangelogFile demoState happyServer ["## h"] "msg").2.filter Request.isPut).all
      Request.hasSourceCommitField = true := by
  refine ⟨rfl, rfl, rfl⟩

/-- C3: the claim states that publish never lets an exception escape and
converts every failure to the boolean false. Evaluation at a configured
instance whose first remote call is rejected shows the rejection propagating
out of addToChangelogFile unchanged (the source has no try/catch), not a
false result. -/
theorem C3_thrown_error_escapes_publish :
    (addToChangelogFile demoState brokenNetworkServer ["## h"] "msg").1
      = Except.error (PublishError.axiosThrown "connect ECONNREFUSED") ∧
    (addToChangelogFile demoState brokenNetworkServer ["## h"] "msg").1 ≠ Except.ok false := by
  constructor
  · rfl
  · intro h
    cases h

/-- C4: the claim states that applyConfig throws InvalidConfig whenever any
config field, branchName included, is blank, and that the instance then stays
unconfigured. Evaluation with a blank branchName and every other value well
formed shows applyConfig succeeding and marking the instance configured: the
source validates repositoryName twice and branchName never. -/
theorem C4_blank_branch_name_accepted :
    applyConfig newBitbucketVersionControl demoCredentials blankBranchConfig "CHANGELOG.md"
      = Except.ok
        { authentication := demoCredentials
          serverConfig := blankBranchConfig
          changelogFile := "CHANGELOG.md", isConfigured := true } := by
  rfl

/-- C5: merging into an existing document whose first line trim-equals the
canonical title and whose second line is blank yields exactly the canonical
title, a blank line, the new block, and every old line from index 2 on, in
order, with no duplicated title pair. -/
theorem C5_merge_canonical_title_dedup (a b : String) (rest newBlock : List String)
    (h0 : jsTrim a = "# Directus Changelog") (h1 : jsTrim b = "") :
    insertNewEntryIntoLog (a :: b :: rest) newBlock
      = "# Directus Changelog" :: "" :: (newBlock ++ rest) := by
  have henum : (a :: b :: rest).enum = (0, a) :: (1, b) :: List.enumFrom 2 rest := rfl
  show (fileHeadline :: "" :: newBlock) ++ (a :: b :: rest).enum.filterMap
      (keepOldLine (fileHeadline :: "" :: newBlock)) = _
  rw [henum, List.filterMap_cons, List.filterMap_cons]
  have ka : keepOldLine (fileHeadline :: "" :: newBlock) (0, a) = none := by
    simp [keepOldLine, jsTrim_headline, h0, fileHeadline]
  have kb : keepOldLine (fileHeadline :: "" :: newBlock) (1, b) = none := by
    simp [keepOldLine, jsTrim_empty, h1]
  rw [ka, kb, filterMap_keepOldLine_enumFrom _ rest 2 (by omega)]
  simp [fileHeadline]

/-- C5 witness: the theorem applied at a concrete document carrying the
canonical title and a blank second line. -/
theorem C5_witness :
    jsTrim "# Directus Changelog" = "# Directus Changelog" ∧ jsTrim "" = "" ∧
    insertNewEntryIntoLog ["# Directus Changelog", "", "## old", "- a"] ["## new", "", "- b"]
      = ["# Directus Changelog", "", "## new", "", "- b", "## old", "- a"] :=
  ⟨by decide, by decide,
    C5_merge_canonical_title_dedup "# Directus Changelog" "" ["## old", "- a"]
      ["## new", "", "- b"] (by decide) (by decide)⟩

/-- C6 counterexample: for a document with a non-canonical first line and a
blank second line, the code drops the blank second line instead of retaining
it verbatim below the new block, so the output claimed by C6 is not produced. -/
theorem C6_counterexample :
    insertNewEntryIntoLog ["# Other Title", "", "- x"] ["## new"]
      = ["# Directus Changelog", "", "## new", "# Other Title", "- x"] ∧
    insertNewEntryIntoLog ["# Other Title", "", "- x"] ["## new"]
      ≠ ["# Directus Changelog", "", "## new", "# Other Title", "", "- x"] := by
  constructor
  · decide
  · decide

/-- C6 amended: when the existing first line is not trim-equal to the
canonical title and the existing second line is not blank, both are retained
verbatim below the new block followed by all later lines; a blank second line
is instead dropped because it trim-matches the blank at index 1 of the new
output (see the counterexample). -/
theorem C6_merge_non_canonical_title_retained (a b : String) (rest newBlock : List String)
    (h0 : jsTrim a ≠ jsTrim "# Directus Changelog") (h1 : jsTrim b ≠ "") :
    insertNewEntryIntoLog (a :: b :: rest) newBlock
      = "# Directus Changelog" :: "" :: (newBlock ++ a :: b :: rest) := by
  have henum : (a :: b :: rest).enum = (0, a) :: (1, b) :: List.enumFrom 2 rest := rfl
  show (fileHeadline :: "" :: newBlock) ++ (a :: b :: rest).enum.filterMap
      (keepOldLine (fileHeadline :: "" :: newBlock)) = _
  rw [henum, List.filterMap_cons, List.filterMap_cons]
  have ka : keepOldLine (fileHeadline :: "" :: newBlock) (0, a) = some a := by
    simp [keepOldLine, fileHeadline]
    intro hcontra
    exact absurd hcontra.symm (by simpa [fileHeadline, jsTrim_headline] using h0)
  have kb : keepOldLine (fileHeadline :: "" :: newBlock) (1, b) = some b := by
    simp [keepOldLine, jsTrim_empty]
    intro hcontra
    exact absurd hcontra.symm h1
  rw [ka, kb, filterMap_keepOldLine_enumFrom _ rest 2 (by omega)]
  simp [fileHeadline]

/-- C6 witness: the amended theorem applied at a concrete document with a
different title and a non-blank second line. -/
theorem C6_witness :
    jsTrim "# Other Title" ≠ jsTrim "# Directus Changelog" ∧ jsTrim "intro" ≠ "" ∧
    insertNewEntryIntoLog ["# Other Title", "intro", "- x"] ["## new"]
      = ["# Directus Changelog", "", "## new", "# Other Title", "intro", "- x"] :=
  ⟨by decide, by decide,
    C6_merge_non_canonical_title_retained "# Other Title" "intro" ["- x"] ["## new"]
      (by decide) (by decide)⟩

/-- C7 counterexample: the source passes a line through unchanged whenever
its trimmed form already begins with dash-space, so an output item can keep
its leading whitespace and need not begin with the two characters dash-space;
the same item shows that the content after the dash-space can itself begin
with a dash. -/
theorem C7_counterexample :
    formatLatestChanges "  - - x" "## h" = ["## h", "", "  - - x"] ∧
    jsStartsWith "  - - x" "- " = false ∧
    jsStartsWith (jsSubstringFrom (jsTrimLeft "  - - x") 2) "-" = true := by
  refine ⟨by decide, by decide, by decide⟩

/-- C7 amended: the output of formatLatestChanges is the heading, a blank
line, then one item per source line that is not blank after trimming, and
every such item begins with dash-space once its leading whitespace is
stripped (the content after the dash-space may itself contain dashes). -/
theorem C7_format_entry_normalization (raw heading : String) :
    (formatLatestChanges raw heading).take 2 = [heading, ""] ∧
    ((formatLatestChanges raw heading).drop 2).length
      = ((jsSplitNl raw).filter (fun l => !(jsTrim l == ""))).length ∧
    ∀ item ∈ (formatLatestChanges raw heading).drop 2,
      jsStartsWith (jsTrimLeft item) "- " = true := by
  refine ⟨rfl, ?_, ?_⟩
  · show ((jsSplitNl raw).filterMap formatLine).length = _
    exact length_filterMap_formatLine _
  · intro item him
    have hmem : item ∈ (jsSplitNl raw).filterMap formatLine := him
    obtain ⟨line, _, hf⟩ := List.mem_filterMap.mp hmem
    exact formatLine_some_startsWith line item hf

/-- C7 witness: the amended theorem applied at a concrete raw text with a
blank line and an unformatted line. -/
theorem C7_witness :
    ("- one" ∈ (formatLatestChanges "one\n\ntwo" "## h").drop 2) ∧
    jsStartsWith (jsTrimLeft "- one") "- " = true :=
  ⟨by decide, (C7_format_entry_normalization "one\n\ntwo" "## h").2.2 "- one" (by decide)⟩

/-- C8: merging a new block into an empty existing document yields exactly
the canonical title, a blank line, and the new block. -/
theorem C8_merge_empty_document (newBlock : List String) :
    insertNewEntryIntoLog [] newBlock = "# Directus Changelog" :: "" :: newBlock := by
  simp [insertNewEntryIntoLog, fileHeadline]

/-- C9: the per-line normalization of formatLatestChanges is idempotent on an
already normalized list item: any line whose trimmed form begins with
dash-space passes through unchanged. -/
theorem C9_format_line_idempotent (line : String)
    (h : jsStartsWith (jsTrim line) "- " = true) :
    formatLine line = some line := by
  have hpre : ("- " : String).data <+: (jsTrim line).data := of_decide_eq_true h
  obtain ⟨t, ht⟩ := hpre
  rw [dashSpace_data] at ht
  have hne : jsTrim line ≠ "" := by
    intro hcon
    have hdata := congrArg String.data hcon
    rw [← ht] at hdata
    simp at hdata
  have hs1 : jsStartsWith (jsTrim line) "-" = true := by
    apply decide_eq_true
    exact ⟨' ' :: t, by simpa using ht⟩
  simp [formatLine, hne, hs1, h]

/-- C9 witness: the theorem applied at a concrete normalized item. -/
theorem C9_witness :
    jsStartsWith (jsTrim "- done") "- " = true ∧ formatLine "- done" = some "- done" :=
  ⟨by decide, C9_format_line_idempotent "- done" (by decide)⟩

/-- C10: calling addToChangelogFile on an unconfigured instance produces the
deliberate BaseException throw before any remote request is issued, and the
unconfigured guard is the only deliberate throw of the publish entry point:
on a configured instance the result is never a deliberate exception. -/
theorem C10_unconfigured_only_deliberate_throw (self : BitbucketVersionControl)
    (srv : RemoteServer) (newContent : List String) (commitMessage : String) :
    (self.isConfigured = false →
      addToChangelogFile self srv newContent commitMessage
        = (Except.error (PublishError.deliberate ExceptionTypes.BaseException
            "BitbucketVersionControl: Calling addToChangelogFile() cannot work without configuration; run applyConfig() first"),
          []))
    ∧ (self.isConfigured = true →
        ∀ e m, (addToChangelogFile self srv newContent commitMessage).1
          ≠ Except.error (PublishError.deliberate e m)) := by
  constructor
  · intro h
    simp [addToChangelogFile, h]
  · intro h e m
    unfold addToChangelogFile
    simp only [h]
    cases srv.commits with
    | thrown msg => simp
    | resolved st d =>
      by_cases hst : st = 200
      · simp only [hst]
        cases hv : d.values with
        | nil => simp [hv]
        | cons c cs =>
          cases srv.browse with
          | thrown msg => simp [hv]
          | resolved st2 d2 =>
            by_cases hst2 : st2 = 200
            · cases hput : srv.put [("branch", self.serverConfig.branchName),
                ("content", String.intercalate "\n"
                  (insertNewEntryIntoLog (d2.lines.getD []) newContent)),
                ("message", commitMessage),
                ("sourceCommitId", c)] with
              | thrown msg => simp [hv, hst2, hput]
              | resolved st3 u => by_cases hst3 : st3 = 200 <;> simp [hv, hst2, hput, hst3]
            · simp [hv, hst2]
      · simp [hst]

/-- C10 witness: the theorem applied at the freshly constructed instance and
at a configured instance against a healthy server. -/
theorem C10_witness :
    addToChangelogFile newBitbucketVersionControl happyServer ["## h"] "msg"
      = (Except.error (PublishError.deliberate ExceptionTypes.BaseException
          "BitbucketVersionControl: Calling addToChangelogFile() cannot work without configuration; run applyConfig() first"),
        []) ∧
    (addToChangelogFile demoState happyServer ["## h"] "msg").1
      ≠ Except.error (PublishError.deliberate ExceptionTypes.BaseException "boom") :=
  ⟨(C10_unconfigured_only_deliberate_throw newBitbucketVersionControl happyServer
      ["## h"] "msg").1 rfl,
    (C10_unconfigured_only_deliberate_throw demoState happyServer ["## h"] "msg").2 rfl
      ExceptionTypes.BaseException "boom"⟩
